import Mathlib

/-!
Verification development for the Wallet-Pass repository.

Shallow embedding of the repository core:
- canonical tree documents (`JsonV`) exchanged with the remote provider,
- `json_templates.get_template` (document synthesis from relational columns),
- `database.db_manager.DatabaseManager` (relational store operations),
- `google_wallet_parser.parse_google_wallet_class` (document parsing),
- `wallet_service.WalletClient` identifier resolution (`_prepare_ids_to_try`,
  `get_object`, `get_class`),
- `services.class_update_service.propagate_class_update_to_passes`,
- the `api.api` endpoints `update_class` and `get_passes`.

Machine integers do not occur on these paths; Python strings are `String`,
Python `None`-able values are `Option String`, Python dicts whose keys are
statically known are structures with `Option` fields (a `none` field models
an absent or `None`-valued key, matching the `exclude_unset` payloads and
the `is not None` filters on these code paths).
-/

namespace WalletPass

/-- Canonical tree document (the JSON trees built and parsed by the code).
Leaves on the modelled paths are strings. -/
inductive JsonV where
  | str (s : String)
  | obj (fields : List (String × JsonV))
  | arr (elems : List JsonV)

/-- Python `dict.get(key)`: lookup of a key in an object, `none` otherwise. -/
def JsonV.get : JsonV → String → Option JsonV
  | .obj fs, k => fs.lookup k
  | _, _ => none

/-- Python `key in dict`. -/
def JsonV.hasKey (j : JsonV) (k : String) : Bool :=
  (j.get k).isSome

/-- Extract a string leaf. -/
def JsonV.asStr : JsonV → Option String
  | .str s => some s
  | _ => none

/-- Python `dict.get(key)` for a string-valued key. -/
def getStrKey (j : JsonV) (k : String) : Option String :=
  (j.get k).bind JsonV.asStr

/-- Python `d.get(key, {})`: lookup falling back to an empty dict. -/
def getObjKey (j : JsonV) (k : String) : JsonV :=
  (j.get k).getD (.obj [])

/-- Python `x.get("defaultValue", {}).get("value")` on a localized string. -/
def dvValue (j : JsonV) : Option String :=
  getStrKey (getObjKey j "defaultValue") "value"

/-- Python `x.get("sourceUri", {}).get("uri")` on an image object. -/
def sourceUriUri (j : JsonV) : Option String :=
  getStrKey (getObjKey j "sourceUri") "uri"

/-- Python truthiness of a document value (`if wallet_client and updated_class.get("class_json")`). -/
def JsonV.truthy : JsonV → Bool
  | .str s => !(s == "")
  | .obj fs => !fs.isEmpty
  | .arr es => !es.isEmpty

/-- `configs.ISSUER_ID`. -/
def ISSUER_ID : String := "3388000000023033675"

/-- Python `s.strip()`: remove leading and trailing whitespace (list-based
so that the kernel can evaluate it). -/
def py_strip (s : String) : String :=
  String.mk (((s.data.dropWhile Char.isWhitespace).reverse.dropWhile
    Char.isWhitespace).reverse)

/-- Python `s.startswith(p)`. -/
def py_startswith (s p : String) : Bool :=
  p.data.isPrefixOf s.data

/-- Python `s[n:]` for a character count `n`. -/
def py_drop (s : String) (n : Nat) : String :=
  String.mk (s.data.drop n)

/-- Python `c in s` for a single character. -/
def py_contains (s : String) (c : Char) : Bool :=
  s.data.contains c

/-! ## json_templates.py -/

/-- The keyword arguments accepted by the template builders
(`kwargs.get(name, default)`); a `none` field models an absent key, which is
exactly what reaches the builders after `_build_class_json` drops `None`
values (`args_clean`). -/
structure TemplateArgs where
  background_color : Option String := none
  logo_url : Option String := none
  program_logo_url : Option String := none
  hero_image_url : Option String := none
  issuer_name : Option String := none
  logo_description : Option String := none
  hero_description : Option String := none
  header_text : Option String := none
  card_title : Option String := none
  event_name : Option String := none
  venue_name : Option String := none
  venue_address : Option String := none
  event_start : Option String := none
  program_name : Option String := none
  transit_type : Option String := none

/-- A localized-string object: `{"defaultValue": {"language": "en-US", "value": v}}`. -/
def localizedValue (v : String) : JsonV :=
  .obj [("defaultValue", .obj [("language", .str "en-US"), ("value", .str v)])]

/-- An image object: `{"sourceUri": {"uri": u}, "contentDescription": localized d}`. -/
def imageValue (u d : String) : JsonV :=
  .obj [("sourceUri", .obj [("uri", .str u)]), ("contentDescription", localizedValue d)]

/-- `JSONTemplateManager._loyalty_card_template`. -/
def loyalty_card_template (class_id : String) (k : TemplateArgs) : JsonV :=
  .obj [
    ("id", .str class_id),
    ("programLogo", imageValue
      (k.program_logo_url.getD "https://images.unsplash.com/photo-1512568400610-62da28bc8a13?ixlib=rb-4.0.3&ixid=MnwxMjA3fDB8MHxwaG90by1wYWdlfHx8fGVufDB8fHx8&auto=format&fit=crop&w=660&h=660")
      (k.logo_description.getD "Program Logo")),
    ("localizedIssuerName", localizedValue (k.issuer_name.getD "[TEST ONLY] Your Business")),
    ("localizedProgramName", localizedValue (k.program_name.getD "Loyalty Program")),
    ("hexBackgroundColor", .str (k.background_color.getD "#72461d")),
    ("heroImage", imageValue
      (k.hero_image_url.getD "https://images.unsplash.com/photo-1447933601403-0c6688de566e?ixlib=rb-4.0.3&ixid=MnwxMjA3fDB8MHxwaG90by1wYWdlfHx8fGVufDB8fHx8&auto=format&fit=crop&w=1032&h=336")
      (k.hero_description.getD "Hero Image")),
    ("reviewStatus", .str "UNDER_REVIEW")
  ]

/-- `JSONTemplateManager._gift_card_template`. -/
def gift_card_template (class_id : String) (k : TemplateArgs) : JsonV :=
  .obj [
    ("id", .str class_id),
    ("programLogo", imageValue
      (k.program_logo_url.getD "https://images.unsplash.com/photo-1513151233558-d860c5398176?ixlib=rb-4.0.3&ixid=MnwxMjA3fDB8MHxwaG90by1wYWdlfHx8fGVufDB8fHx8&auto=format&fit=crop&w=660&h=660")
      (k.logo_description.getD "Gift Card Logo")),
    ("localizedIssuerName", localizedValue (k.issuer_name.getD "[TEST ONLY] Your Business")),
    ("hexBackgroundColor", .str (k.background_color.getD "#358b1d")),
    ("heroImage", imageValue
      (k.hero_image_url.getD "https://images.unsplash.com/photo-1513151233558-d860c5398176?ixlib=rb-4.0.3&ixid=MnwxMjA3fDB8MHxwaG90by1wYWdlfHx8fGVufDB8fHx8&auto=format&fit=crop&w=1032&h=336")
      (k.hero_description.getD "Hero Image")),
    ("reviewStatus", .str "UNDER_REVIEW")
  ]

/-- `JSONTemplateManager._event_ticket_template`. -/
def event_ticket_template (class_id : String) (k : TemplateArgs) : JsonV :=
  .obj [
    ("id", .str class_id),
    ("issuerName", .str (k.issuer_name.getD "Your Business")),
    ("eventName", localizedValue (k.event_name.getD "Event Name")),
    ("venue", .obj [
      ("name", localizedValue (k.venue_name.getD "Venue Name")),
      ("address", localizedValue (k.venue_address.getD "123 Main St, City"))]),
    ("dateTime", .obj [("start", .str (k.event_start.getD "2025-12-31T19:00:00"))]),
    ("logo", imageValue
      (k.logo_url.getD "https://images.unsplash.com/photo-1512568400610-62da28bc8a13?ixlib=rb-4.0.3&auto=format&fit=crop&w=660&h=660")
      (k.logo_description.getD "Event Logo")),
    ("hexBackgroundColor", .str (k.background_color.getD "#4285f4")),
    ("heroImage", imageValue
      (k.hero_image_url.getD "https://images.unsplash.com/photo-1492684223066-81342ee5ff30?ixlib=rb-4.0.3&auto=format&fit=crop&w=1032&h=336")
      (k.hero_description.getD "Event Hero")),
    ("reviewStatus", .str "UNDER_REVIEW")
  ]

/-- `JSONTemplateManager._transit_pass_template`. -/
def transit_pass_template (class_id : String) (k : TemplateArgs) : JsonV :=
  .obj [
    ("id", .str class_id),
    ("issuerName", .str (k.issuer_name.getD "Transit Authority")),
    ("transitType", .str (k.transit_type.getD "TRANSIT_TYPE_BUS")),
    ("logo", imageValue
      (k.logo_url.getD "https://images.unsplash.com/photo-1544620347-c4fd4a3d5957?auto=format&fit=crop&w=660&h=660")
      (k.logo_description.getD "Transit Logo")),
    ("hexBackgroundColor", .str (k.background_color.getD "#1a73e8")),
    ("heroImage", imageValue
      (k.hero_image_url.getD "https://images.unsplash.com/photo-1544620347-c4fd4a3d5957?auto=format&fit=crop&w=1032&h=336")
      (k.hero_description.getD "Transit Hero")),
    ("reviewStatus", .str "UNDER_REVIEW")
  ]

/-- `JSONTemplateManager._generic_template`. -/
def generic_template (class_id : String) (k : TemplateArgs) : JsonV :=
  .obj [
    ("id", .str class_id),
    ("issuerName", .str (k.issuer_name.getD "Your Business")),
    ("header", localizedValue (k.header_text.getD "Business Name")),
    ("cardTitle", localizedValue (k.card_title.getD "Pass Title")),
    ("logo", imageValue
      (k.logo_url.getD "https://images.unsplash.com/photo-1512568400610-62da28bc8a13?auto=format&fit=crop&w=660&h=660")
      (k.logo_description.getD "Logo")),
    ("hexBackgroundColor", .str (k.background_color.getD "#4285f4")),
    ("heroImage", imageValue
      (k.hero_image_url.getD "https://images.unsplash.com/photo-1557804506-669a67965ba0?auto=format&fit=crop&w=1032&h=336")
      (k.hero_description.getD "Hero Image")),
    ("reviewStatus", .str "UNDER_REVIEW")
  ]

/-- `JSONTemplateManager.get_template`: prefixes the issuer id when the
class id carries no dot, then dispatches on the class type. -/
def get_template (class_type class_id : String) (k : TemplateArgs) : JsonV :=
  let full_class_id := if py_contains class_id '.' then class_id
                       else ISSUER_ID ++ "." ++ class_id
  if class_type == "LoyaltyCard" then loyalty_card_template full_class_id k
  else if class_type == "GiftCard" then gift_card_template full_class_id k
  else if class_type == "EventTicket" then event_ticket_template full_class_id k
  else if class_type == "TransitPass" then transit_pass_template full_class_id k
  else generic_template full_class_id k

/-! ## The joined template row and db_manager._build_class_json -/

/-- The row shape returned by `DatabaseManager.get_class` / `get_all_classes`:
`Classes_Table` columns left-joined with all four type-specific child tables
(`GenericClass_Fields.header/card_title`, `EventTicketClass_Fields`,
`LoyaltyClass_Fields.program_name`, `TransitClass_Fields`). -/
structure ClassView where
  class_id : String
  class_type : String
  issuer_name : Option String := none
  base_color : Option String := none
  logo_url : Option String := none
  hero_image_url : Option String := none
  header : Option String := none
  card_title : Option String := none
  event_name : Option String := none
  venue_name : Option String := none
  venue_address : Option String := none
  event_start : Option String := none
  program_name : Option String := none
  transit_type : Option String := none
  transit_operator_name : Option String := none
deriving Repr, DecidableEq

/-- `DatabaseManager._build_class_json`: builds the template kwargs from the
relational columns (type-specific args added per `class_type`, `None` values
dropped by `args_clean`) and synthesizes the canonical class document.
Note the source passes `transit_type` but not `transit_operator_name`. -/
def build_class_json (r : ClassView) : JsonV :=
  let args : TemplateArgs :=
    { background_color := r.base_color
      logo_url := r.logo_url
      program_logo_url := r.logo_url
      hero_image_url := r.hero_image_url
      issuer_name := r.issuer_name }
  let args : TemplateArgs :=
    if r.class_type == "Generic" then
      { args with header_text := r.header, card_title := r.card_title }
    else if r.class_type == "EventTicket" then
      { args with event_name := r.event_name, venue_name := r.venue_name
                  venue_address := r.venue_address, event_start := r.event_start }
    else if r.class_type == "LoyaltyCard" then
      { args with program_name := r.program_name }
    else if r.class_type == "TransitPass" then
      { args with transit_type := r.transit_type }
    else args
  get_template r.class_type r.class_id args

/-! ## google_wallet_parser.py -/

/-- The metadata dict produced by `parse_google_wallet_class`. -/
structure ParsedClassMeta where
  class_id : String
  class_type : String
  issuer_name : Option String
  base_color : Option String
  logo_url : Option String
  hero_image_url : Option String
  header_text : Option String
  card_title : Option String
  event_name : Option String
  venue_name : Option String
  venue_address : Option String
  event_start : Option String
  program_name : Option String
  transit_type : Option String
  transit_operator_name : Option String
deriving Repr, DecidableEq

/-- `parse_google_wallet_class`: extracts relational fields from a canonical
class document. Class type is detected from type-discriminating keys, the
issuer prefix is stripped from the identifier, and each field mirrors the
corresponding lookup chain of the source (string leaves on these paths). -/
def parse_google_wallet_class (class_json : JsonV) : ParsedClassMeta :=
  let raw_id := (getStrKey class_json "id").getD ""
  { class_id :=
      if py_startswith raw_id (ISSUER_ID ++ ".") then py_drop raw_id (ISSUER_ID.length + 1)
      else raw_id
    class_type :=
      if class_json.hasKey "eventName" then "EventTicket"
      else if class_json.hasKey "programName" then "LoyaltyCard"
      else if class_json.hasKey "merchantName" && class_json.hasKey "cardNumber" then "GiftCard"
      else if class_json.hasKey "transitType" then "TransitPass"
      else "Generic"
    base_color :=
      if class_json.hasKey "hexBackgroundColor" then getStrKey class_json "hexBackgroundColor"
      else none
    logo_url :=
      if class_json.hasKey "programLogo" then sourceUriUri (getObjKey class_json "programLogo")
      else if class_json.hasKey "logo" then sourceUriUri (getObjKey class_json "logo")
      else none
    hero_image_url :=
      if class_json.hasKey "heroImage" then sourceUriUri (getObjKey class_json "heroImage")
      else none
    issuer_name :=
      if class_json.hasKey "localizedIssuerName" then dvValue (getObjKey class_json "localizedIssuerName")
      else if class_json.hasKey "issuerName" then getStrKey class_json "issuerName"
      else none
    header_text :=
      if class_json.hasKey "header" then dvValue (getObjKey class_json "header")
      else none
    card_title :=
      if class_json.hasKey "cardTitle" then dvValue (getObjKey class_json "cardTitle")
      else none
    event_name :=
      if class_json.hasKey "eventName" then dvValue (getObjKey class_json "eventName")
      else none
    venue_name :=
      match class_json.get "venue" with
      | some (.obj vs) => dvValue (getObjKey (.obj vs) "name")
      | _ => none
    venue_address :=
      match class_json.get "venue" with
      | some (.obj vs) => dvValue (getObjKey (.obj vs) "address")
      | _ => none
    event_start :=
      if class_json.hasKey "dateTime" then getStrKey (getObjKey class_json "dateTime") "start"
      else none
    program_name :=
      if class_json.hasKey "localizedProgramName" then dvValue (getObjKey class_json "localizedProgramName")
      else match class_json.get "programName" with
        | some (.obj ps) => dvValue (.obj ps)
        | some v => v.asStr
        | none => none
    transit_type :=
      if class_json.hasKey "transitType" then getStrKey class_json "transitType"
      else none
    transit_operator_name :=
      match class_json.get "transitOperatorName" with
      | some (.obj ts) => dvValue (.obj ts)
      | some v => v.asStr
      | none => none }

/-! ## wallet_service.py — identifier resolution -/

/-- `WalletClient._prepare_ids_to_try`: trim the input (`input_id.strip()`),
keep it alone when it already starts with the issuer id, otherwise try the
prefixed form first and the raw form second. -/
def prepare_ids_to_try (input_id : String) : List String :=
  let clean_id := py_strip input_id
  if py_startswith clean_id ISSUER_ID then [clean_id]
  else [ISSUER_ID ++ "." ++ clean_id, clean_id]

/-- An `HttpError` raised by the remote gateway: its response status and its
decoded content. -/
structure HttpErr where
  status : Nat
  content : String
deriving Repr, DecidableEq

/-- Outcome of one `resource.get(resourceId=...).execute()` call. -/
inductive ProbeOutcome where
  | ok (doc : JsonV)
  | err (e : HttpErr)

/-- Errors surfaced by the lookup loops. -/
inductive WalletError where
  /-- an `HttpError` raised unchanged (fatal status, or `raise last_error`). -/
  | http (e : HttpErr)
  /-- `get_class` exhaustion: the source raises
  `Exception("Google Error (404): Class not found.\nTried IDs: ...\nDetails: ...")`,
  interpolating the whole `ids_to_try` list and the decoded content of the
  last stored error; modelled structurally as the pair it interpolates. -/
  | classNotFoundAggregate (tried : List String) (details : String)
  /-- the `Unknown error fetching ...` fallback raised when no probe ran. -/
  | unknown (msg : String)
deriving Repr, DecidableEq

/-- The object resources probed by `get_object`, in source order. -/
def object_resources : List String :=
  ["genericobject", "loyaltyobject", "offerobject", "giftcardobject",
   "transitobject", "flightobject", "eventticketobject"]

/-- The class resources probed by `get_class`, in source order. -/
def class_resources : List String :=
  ["genericclass", "loyaltyclass", "offerclass", "giftcardclass",
   "transitclass", "flightclass", "eventticketclass"]

/-- Result of running the nested probe loops: a successful `get`, a fatal
error that aborted them, or exhaustion carrying the last stored non-fatal
error (`last_error`). -/
inductive ScanResult where
  | found (doc : JsonV)
  | fatal (e : HttpErr)
  | exhausted (last : Option HttpErr)

/-- The inner loop (`for resource in resources`) for one candidate id:
return on the first successful `get`, store a non-fatal error in
`last_error` and continue, abort on any other error. -/
def probe_resources (probe : String → String → ProbeOutcome) (nonFatal : Nat → Bool)
    (oid : String) : List String → Option HttpErr → ScanResult
  | [], last => .exhausted last
  | r :: rs, _last =>
    match probe oid r with
    | .ok d => .found d
    | .err e => if nonFatal e.status then probe_resources probe nonFatal oid rs (some e)
                else .fatal e

/-- The outer loop (`for oid in ids_to_try`), threading `last_error`
across candidates. -/
def probe_candidates (probe : String → String → ProbeOutcome) (nonFatal : Nat → Bool)
    (resources : List String) : List String → Option HttpErr → ScanResult
  | [], last => .exhausted last
  | oid :: oids, last =>
    match probe_resources probe nonFatal oid resources last with
    | .found d => .found d
    | .fatal e => .fatal e
    | .exhausted last2 => probe_candidates probe nonFatal resources oids last2

/-- `WalletClient.get_object`: probes every object resource for every
candidate id; only a 404 is non-fatal; on exhaustion the stored
`last_error` is re-raised unchanged. -/
def get_object (object_id : String) (probe : String → String → ProbeOutcome) :
    Except WalletError JsonV :=
  let ids_to_try := prepare_ids_to_try object_id
  match probe_candidates probe (fun s => s == 404) object_resources ids_to_try none with
  | .found d => .ok d
  | .fatal e => .error (.http e)
  | .exhausted (some e) => .error (.http e)
  | .exhausted none => .error (.unknown "Unknown error fetching object")

/-- `WalletClient.get_class`: probes every class resource for every
candidate id; both 404 and 400 are non-fatal; on exhaustion an aggregate
not-found error carrying the whole candidate list is raised. -/
def get_class (class_id : String) (probe : String → String → ProbeOutcome) :
    Except WalletError JsonV :=
  let ids_to_try := prepare_ids_to_try class_id
  match probe_candidates probe (fun s => s == 404 || s == 400) class_resources ids_to_try none with
  | .found d => .ok d
  | .fatal e => .error (.http e)
  | .exhausted (some e) => .error (.classNotFoundAggregate ids_to_try e.content)
  | .exhausted none => .error (.unknown "Unknown error fetching class")

/-! ## database/db_manager.py — the relational store -/

/-- `Classes_Table` row (parent). -/
structure ClassesRow where
  class_id : String
  class_type : String
  issuer_name : Option String := none
  base_color : Option String := none
  logo_url : Option String := none
  hero_image_url : Option String := none
deriving Repr, DecidableEq

/-- `GenericClass_Fields` row. -/
structure GenericClassFieldsRow where
  class_id : String
  header : Option String := none
  card_title : Option String := none
deriving Repr, DecidableEq

/-- `EventTicketClass_Fields` row. -/
structure EventTicketClassFieldsRow where
  class_id : String
  event_name : Option String := none
  venue_name : Option String := none
  venue_address : Option String := none
  event_start : Option String := none
deriving Repr, DecidableEq

/-- `LoyaltyClass_Fields` row. -/
structure LoyaltyClassFieldsRow where
  class_id : String
  program_name : Option String := none
deriving Repr, DecidableEq

/-- `TransitClass_Fields` row. -/
structure TransitClassFieldsRow where
  class_id : String
  transit_type : Option String := none
  transit_operator_name : Option String := none
deriving Repr, DecidableEq

/-- `Passes_Table` row (core instance columns). -/
structure PassesRow where
  object_id : String
  class_id : String
  holder_name : String
  holder_email : String
  status : String
  sync_status : String
  last_synced_at : Option String := none
deriving Repr, DecidableEq

/-- `EventTicket_Fields` row. -/
structure EventTicketFieldsRow where
  object_id : String
  ticket_holder_name : Option String := none
  confirmation_code : Option String := none
  seat : Option String := none
  «section» : Option String := none
  gate : Option String := none
deriving Repr, DecidableEq

/-- `Generic_Fields` row. -/
structure GenericFieldsRow where
  object_id : String
  header_value : Option String := none
  subheader_value : Option String := none
deriving Repr, DecidableEq

/-- `Pass_Text_Modules` row. -/
structure PassTextModuleRow where
  object_id : String
  module_id : Option String := none
  header : Option String := none
  body : Option String := none
  display_order : Nat := 0
deriving Repr, DecidableEq

/-- `Pass_Messages` row. -/
structure PassMessageRow where
  object_id : String
  message_id : Option String := none
  header : Option String := none
  body : Option String := none
  message_type : Option String := none
  start_date : Option String := none
  end_date : Option String := none
deriving Repr, DecidableEq

/-- `Notifications_Table` row. -/
structure NotificationRow where
  class_id : String
  object_id : String
  status : String
  message : String
deriving Repr, DecidableEq

/-- The relational store: all tables touched by the modelled operations. -/
structure Store where
  classes_table : List ClassesRow := []
  generic_class_fields : List GenericClassFieldsRow := []
  event_ticket_class_fields : List EventTicketClassFieldsRow := []
  loyalty_class_fields : List LoyaltyClassFieldsRow := []
  transit_class_fields : List TransitClassFieldsRow := []
  passes_table : List PassesRow := []
  event_ticket_fields : List EventTicketFieldsRow := []
  generic_fields : List GenericFieldsRow := []
  pass_text_modules : List PassTextModuleRow := []
  pass_messages : List PassMessageRow := []
  notifications_table : List NotificationRow := []
deriving Repr, DecidableEq

/-- Python `new if key present else old`: an update that sets a column only
when the corresponding keyword was supplied (with a non-null value, which is
what the modelled call sites pass). -/
def orKey (new old : Option String) : Option String :=
  match new with
  | some v => some v
  | none => old

/-- `DatabaseManager.get_class`: the `Classes_Table` row left-joined with every
type-specific child table (the `class_json` column is synthesized separately
by `build_class_json`, as in the source). -/
def db_get_class (st : Store) (class_id : String) : Option ClassView :=
  (st.classes_table.find? (fun r => r.class_id == class_id)).map fun c =>
    let g := st.generic_class_fields.find? (fun r => r.class_id == class_id)
    let e := st.event_ticket_class_fields.find? (fun r => r.class_id == class_id)
    let l := st.loyalty_class_fields.find? (fun r => r.class_id == class_id)
    let t := st.transit_class_fields.find? (fun r => r.class_id == class_id)
    { class_id := c.class_id
      class_type := c.class_type
      issuer_name := c.issuer_name
      base_color := c.base_color
      logo_url := c.logo_url
      hero_image_url := c.hero_image_url
      header := g.bind (fun r => r.header)
      card_title := g.bind (fun r => r.card_title)
      event_name := e.bind (fun r => r.event_name)
      venue_name := e.bind (fun r => r.venue_name)
      venue_address := e.bind (fun r => r.venue_address)
      event_start := e.bind (fun r => r.event_start)
      program_name := l.bind (fun r => r.program_name)
      transit_type := t.bind (fun r => r.transit_type)
      transit_operator_name := t.bind (fun r => r.transit_operator_name) }

/-- The keyword arguments of `DatabaseManager.update_class` (callers pass
set fields only; `none` models an absent keyword). -/
structure ClassUpdateKwargs where
  class_type : Option String := none
  issuer_name : Option String := none
  base_color : Option String := none
  logo_url : Option String := none
  hero_image_url : Option String := none
  header_text : Option String := none
  card_title : Option String := none
  event_name : Option String := none
  venue_name : Option String := none
  venue_address : Option String := none
  event_start : Option String := none
  program_name : Option String := none
  transit_type : Option String := none
  transit_operator_name : Option String := none
deriving Repr, DecidableEq

/-- Whether any keyword at all was supplied (Python `if not update_data`). -/
def ClassUpdateKwargs.anyKey (k : ClassUpdateKwargs) : Bool :=
  k.class_type.isSome || k.issuer_name.isSome || k.base_color.isSome ||
  k.logo_url.isSome || k.hero_image_url.isSome || k.header_text.isSome ||
  k.card_title.isSome || k.event_name.isSome || k.venue_name.isSome ||
  k.venue_address.isSome || k.event_start.isSome || k.program_name.isSome ||
  k.transit_type.isSome || k.transit_operator_name.isSome

/-- Whether any parent-table field was supplied (`parent_updates`). -/
def ClassUpdateKwargs.anyParentKey (k : ClassUpdateKwargs) : Bool :=
  k.class_type.isSome || k.issuer_name.isSome || k.base_color.isSome ||
  k.logo_url.isSome || k.hero_image_url.isSome

/-- Step 1 of `DatabaseManager.update_class`:
`UPDATE Classes_Table SET <supplied parent fields> WHERE class_id = %s`. -/
def update_class_parent_step (st : Store) (class_id : String) (kw : ClassUpdateKwargs) :
    Store :=
  if kw.anyParentKey then
    { st with classes_table := st.classes_table.map fun r =>
        if r.class_id == class_id then
          { r with class_type := kw.class_type.getD r.class_type
                   issuer_name := orKey kw.issuer_name r.issuer_name
                   base_color := orKey kw.base_color r.base_color
                   logo_url := orKey kw.logo_url r.logo_url
                   hero_image_url := orKey kw.hero_image_url r.hero_image_url }
        else r }
  else st

/-- Step 3 of `DatabaseManager.update_class`: the type-routed child-table
update-or-insert over the non-None supplied fields. -/
def update_class_child_step (st : Store) (class_id : String) (kw : ClassUpdateKwargs)
    (class_type : String) : Store :=
  if class_type == "Generic" then
      if kw.header_text.isSome || kw.card_title.isSome then
        if (st.generic_class_fields.find? (fun r => r.class_id == class_id)).isSome then
          { st with generic_class_fields := st.generic_class_fields.map fun r =>
              if r.class_id == class_id then
                { r with header := orKey kw.header_text r.header
                         card_title := orKey kw.card_title r.card_title }
              else r }
        else
          { st with generic_class_fields := st.generic_class_fields ++
              [{ class_id := class_id, header := kw.header_text, card_title := kw.card_title }] }
      else st
    else if class_type == "EventTicket" then
      if kw.event_name.isSome || kw.venue_name.isSome || kw.venue_address.isSome ||
         kw.event_start.isSome then
        if (st.event_ticket_class_fields.find? (fun r => r.class_id == class_id)).isSome then
          { st with event_ticket_class_fields := st.event_ticket_class_fields.map fun r =>
              if r.class_id == class_id then
                { r with event_name := orKey kw.event_name r.event_name
                         venue_name := orKey kw.venue_name r.venue_name
                         venue_address := orKey kw.venue_address r.venue_address
                         event_start := orKey kw.event_start r.event_start }
              else r }
        else
          { st with event_ticket_class_fields := st.event_ticket_class_fields ++
              [{ class_id := class_id, event_name := kw.event_name, venue_name := kw.venue_name,
                 venue_address := kw.venue_address, event_start := kw.event_start }] }
      else st
    else if class_type == "LoyaltyCard" then
      if kw.program_name.isSome then
        if (st.loyalty_class_fields.find? (fun r => r.class_id == class_id)).isSome then
          { st with loyalty_class_fields := st.loyalty_class_fields.map fun r =>
              if r.class_id == class_id then { r with program_name := orKey kw.program_name r.program_name }
              else r }
        else
          { st with loyalty_class_fields := st.loyalty_class_fields ++
              [{ class_id := class_id, program_name := kw.program_name }] }
      else st
    else if class_type == "TransitPass" then
      if kw.transit_type.isSome || kw.transit_operator_name.isSome then
        if (st.transit_class_fields.find? (fun r => r.class_id == class_id)).isSome then
          { st with transit_class_fields := st.transit_class_fields.map fun r =>
              if r.class_id == class_id then
                { r with transit_type := orKey kw.transit_type r.transit_type
                         transit_operator_name := orKey kw.transit_operator_name r.transit_operator_name }
              else r }
        else
          { st with transit_class_fields := st.transit_class_fields ++
              [{ class_id := class_id, transit_type := kw.transit_type,
                 transit_operator_name := kw.transit_operator_name }] }
      else st
    else st

/-- `DatabaseManager.update_class`: dynamic `UPDATE` of the parent row's
supplied fields, then an update-or-insert of the type-specific child row
selected by the (given or looked-up) class type. Returns `True`
unconditionally. -/
def db_update_class (st : Store) (class_id : String) (kw : ClassUpdateKwargs) :
    Store × Bool :=
  let st := update_class_parent_step st class_id kw
  -- 2. class_type for child routing (defaults to Generic when the row is absent)
  let class_type :=
    match kw.class_type with
    | some ct => ct
    | none =>
      match st.classes_table.find? (fun r => r.class_id == class_id) with
      | some r => r.class_type
      | none => "Generic"
  (update_class_child_step st class_id kw class_type, true)

/-! ## Pass payload dictionaries -/

/-- The event-ticket keys read off a pass-data dict (both spellings). -/
structure EventTicketDataDict where
  ticketHolderName : Option String := none
  ticket_holder_name : Option String := none
  confirmationCode : Option String := none
  confirmation_code : Option String := none
  seatNumber : Option String := none
  seat : Option String := none
  «section» : Option String := none
  gate : Option String := none
deriving Repr, DecidableEq

def EventTicketDataDict.anyKey (d : EventTicketDataDict) : Bool :=
  d.ticketHolderName.isSome || d.ticket_holder_name.isSome ||
  d.confirmationCode.isSome || d.confirmation_code.isSome ||
  d.seatNumber.isSome || d.seat.isSome || d.section.isSome || d.gate.isSome

/-- The generic keys read off a pass-data dict. -/
structure GenericDataDict where
  header_value : Option String := none
  header : Option String := none
  subheader_value : Option String := none
deriving Repr, DecidableEq

def GenericDataDict.anyKey (d : GenericDataDict) : Bool :=
  d.header_value.isSome || d.header.isSome || d.subheader_value.isSome

/-- One entry of a `textModulesData` / `text_modules` list. -/
structure TextModuleInput where
  id : Option String := none
  header : Option String := none
  body : Option String := none
deriving Repr, DecidableEq

/-- The `displayInterval` sub-dict of a message: `start.date` and `end.date`. -/
structure DisplayIntervalDict where
  start_date : Option String := none
  end_date : Option String := none
deriving Repr, DecidableEq

/-- One entry of a `messages` list. -/
structure MessageInput where
  id : Option String := none
  header : Option String := none
  body : Option String := none
  messageType : Option String := none
  start_date : Option String := none
  end_date : Option String := none
  displayInterval : Option DisplayIntervalDict := none
deriving Repr, DecidableEq

/-- A `pass_data` dict as consumed by `create_pass` / `update_pass`:
optional nested `event_ticket_data` / `generic_data` sub-dicts, the flat
type-specific keys on the dict itself, and the two optional array keys
(`none` models an absent key). -/
structure PassDataDict where
  event_ticket_data : Option EventTicketDataDict := none
  generic_data : Option GenericDataDict := none
  flat_event : EventTicketDataDict := {}
  flat_generic : GenericDataDict := {}
  textModulesData : Option (List TextModuleInput) := none
  text_modules : Option (List TextModuleInput) := none
  messages : Option (List MessageInput) := none
deriving Repr, DecidableEq

/-- Python truthiness of the dict (`if pd and isinstance(pd, dict)`):
true when at least one key is present. -/
def PassDataDict.truthy (pd : PassDataDict) : Bool :=
  pd.event_ticket_data.isSome || pd.generic_data.isSome ||
  pd.flat_event.anyKey || pd.flat_generic.anyKey ||
  pd.textModulesData.isSome || pd.text_modules.isSome || pd.messages.isSome

/-- The `Pass_Text_Modules` rows inserted for a module list:
`display_order` is the enumeration index. -/
def textModuleRows (object_id : String) (mods : List TextModuleInput) :
    List PassTextModuleRow :=
  mods.enum.map fun p =>
    { object_id := object_id, module_id := p.2.id, header := p.2.header,
      body := p.2.body, display_order := p.1 }

/-- The `Pass_Messages` row inserted for one message: `displayInterval`
dates take precedence over the flat `start_date` / `end_date` keys. -/
def messageRow (object_id : String) (m : MessageInput) : PassMessageRow :=
  let start_val :=
    match m.displayInterval with
    | some itv => orKey itv.start_date m.start_date
    | none => m.start_date
  let end_val :=
    match m.displayInterval with
    | some itv => orKey itv.end_date m.end_date
    | none => m.end_date
  { object_id := object_id, message_id := m.id, header := m.header, body := m.body,
    message_type := m.messageType, start_date := start_val, end_date := end_val }

/-- `DatabaseManager.create_pass`: looks up the referenced class first and
returns `False` without writing anything when it is absent; otherwise
inserts the core row, one type-specific row (event-ticket for EventTicket
classes, generic otherwise), and the two array collections. -/
def db_create_pass (st : Store) (object_id class_id holder_name holder_email : String)
    (pass_data : Option PassDataDict) (status : String) : Store × Bool :=
  match db_get_class st class_id with
  | none => (st, false)
  | some class_info =>
    let class_type := class_info.class_type
    let pd : PassDataDict := pass_data.getD {}
    -- 1. core row, sync_status starts at pending
    let coreRow : PassesRow :=
      { object_id := object_id, class_id := class_id, holder_name := holder_name,
        holder_email := holder_email, status := status, sync_status := "pending" }
    let st := { st with passes_table := st.passes_table ++ [coreRow] }
    -- 2. scalar type-specific row
    let st :=
      if class_type == "EventTicket" then
        let etd := pd.event_ticket_data.getD pd.flat_event
        let etRow : EventTicketFieldsRow :=
          { object_id := object_id,
            ticket_holder_name := orKey etd.ticketHolderName etd.ticket_holder_name,
            confirmation_code := orKey etd.confirmationCode etd.confirmation_code,
            seat := orKey etd.seatNumber etd.seat,
            «section» := etd.section, gate := etd.gate }
        { st with event_ticket_fields := st.event_ticket_fields ++ [etRow] }
      else
        let gd := pd.generic_data.getD pd.flat_generic
        let gRow : GenericFieldsRow :=
          { object_id := object_id,
            header_value := orKey gd.header_value gd.header,
            subheader_value := gd.subheader_value }
        { st with generic_fields := st.generic_fields ++ [gRow] }
    -- 3. text modules array
    let text_modules := pd.textModulesData.getD (pd.text_modules.getD [])
    let st := { st with pass_text_modules :=
        st.pass_text_modules ++ textModuleRows object_id text_modules }
    -- 4. messages array
    let messages := pd.messages.getD []
    let st := { st with pass_messages :=
        st.pass_messages ++ messages.map (messageRow object_id) }
    (st, true)

/-- The keyword arguments of `DatabaseManager.update_pass`. -/
structure PassUpdateKwargs where
  holder_name : Option String := none
  holder_email : Option String := none
  status : Option String := none
  sync_status : Option String := none
  last_synced_at : Option String := none
  pass_data : Option PassDataDict := none
deriving Repr, DecidableEq

def PassUpdateKwargs.anyCoreKey (k : PassUpdateKwargs) : Bool :=
  k.holder_name.isSome || k.holder_email.isSome || k.status.isSome ||
  k.sync_status.isSome || k.last_synced_at.isSome

/-- Step 1 of `DatabaseManager.update_pass`:
`UPDATE Passes_Table SET <supplied core fields> WHERE object_id = %s`. -/
def update_pass_core_step (st : Store) (object_id : String) (kw : PassUpdateKwargs) :
    Store :=
  if kw.anyCoreKey then
    { st with passes_table := st.passes_table.map fun r =>
        if r.object_id == object_id then
          { r with holder_name := kw.holder_name.getD r.holder_name
                   holder_email := kw.holder_email.getD r.holder_email
                   status := kw.status.getD r.status
                   sync_status := kw.sync_status.getD r.sync_status
                   last_synced_at := orKey kw.last_synced_at r.last_synced_at }
        else r }
  else st

/-- The type-specific upsert of `update_pass`
(`INSERT ... ON DUPLICATE KEY UPDATE`). -/
def update_pass_scalar_step (st : Store) (object_id : String) (class_type : String)
    (pd : PassDataDict) : Store :=
  if class_type == "EventTicket" then
    let ticket_holder_name := orKey pd.flat_event.ticket_holder_name pd.flat_event.ticketHolderName
    let confirmation_code := orKey pd.flat_event.confirmation_code pd.flat_event.confirmationCode
    let seat := orKey pd.flat_event.seat pd.flat_event.seatNumber
    let newRow : EventTicketFieldsRow :=
      { object_id := object_id, ticket_holder_name := ticket_holder_name,
        confirmation_code := confirmation_code, seat := seat,
        «section» := pd.flat_event.section, gate := pd.flat_event.gate }
    if (st.event_ticket_fields.find? (fun r => r.object_id == object_id)).isSome then
      { st with event_ticket_fields := st.event_ticket_fields.map fun r =>
          if r.object_id == object_id then newRow else r }
    else
      { st with event_ticket_fields := st.event_ticket_fields ++ [newRow] }
  else
    let header_value := orKey pd.flat_generic.header_value pd.flat_generic.header
    let newRow : GenericFieldsRow :=
      { object_id := object_id, header_value := header_value,
        subheader_value := pd.flat_generic.subheader_value }
    if (st.generic_fields.find? (fun r => r.object_id == object_id)).isSome then
      { st with generic_fields := st.generic_fields.map fun r =>
          if r.object_id == object_id then newRow else r }
    else
      { st with generic_fields := st.generic_fields ++ [newRow] }

/-- The array-collection handling of `update_pass`: each collection whose
key is present is replaced wholesale (delete all prior rows of the
instance, reinsert the supplied entries); an absent key leaves the
collection untouched. -/
def update_pass_arrays_step (st : Store) (object_id : String) (pd : PassDataDict) :
    Store :=
  let st :=
    if pd.textModulesData.isSome || pd.text_modules.isSome then
      { st with pass_text_modules :=
          st.pass_text_modules.filter (fun r => !(r.object_id == object_id)) ++
          textModuleRows object_id (pd.textModulesData.getD (pd.text_modules.getD [])) }
    else st
  if pd.messages.isSome then
    { st with pass_messages :=
        st.pass_messages.filter (fun r => !(r.object_id == object_id)) ++
        (pd.messages.getD []).map (messageRow object_id) }
  else st

/-- `DatabaseManager.update_pass`: updates supplied core columns, then —
when a truthy `pass_data` dict is supplied — upserts the type-specific row
and replaces each array collection whose key is present. Returns `False`
only when `pass_data` is supplied but the pass row is absent. -/
def db_update_pass (st : Store) (object_id : String) (kw : PassUpdateKwargs) :
    Store × Bool :=
  let st := update_pass_core_step st object_id kw
  match kw.pass_data with
  | none => (st, true)
  | some pd =>
    if pd.truthy then
      match st.passes_table.find? (fun r => r.object_id == object_id) with
      | none => (st, false)
      | some prow =>
        let class_type :=
          match st.classes_table.find? (fun c => c.class_id == prow.class_id) with
          | some c => c.class_type
          | none => "Generic"
        (update_pass_arrays_step (update_pass_scalar_step st object_id class_type pd)
          object_id pd, true)
    else (st, true)

/-- `DatabaseManager.create_notification`: append-only insert into
`Notifications_Table`. -/
def db_create_notification (st : Store) (class_id object_id status message : String) :
    Store :=
  { st with notifications_table := st.notifications_table ++
      [{ class_id := class_id, object_id := object_id, status := status, message := message }] }

/-! ## Pass reads: _construct_pass_dictionary and the list operations -/

/-- The reshaped `event_ticket_data` dict of a constructed pass. -/
structure EventTicketDataView where
  ticketHolderName : Option String := none
  confirmationCode : Option String := none
  seatNumber : Option String := none
  «section» : Option String := none
  gate : Option String := none
deriving Repr, DecidableEq

/-- The reshaped `generic_data` dict of a constructed pass. -/
structure GenericDataView where
  header_value : Option String := none
  subheader_value : Option String := none
deriving Repr, DecidableEq

/-- The fully hydrated pass dict built by
`DatabaseManager._construct_pass_dictionary`: core columns, one type-specific
sub-dict, both array collections (keys present only when rows exist), and the
legacy flattened `pass_data` view. -/
structure PassView where
  core : PassesRow
  event_ticket_data : Option EventTicketDataView := none
  generic_data : Option GenericDataView := none
  textModulesData : Option (List TextModuleInput) := none
  messages : Option (List MessageInput) := none
  pass_data : PassDataDict := {}
deriving Repr, DecidableEq

/-- `DatabaseManager._construct_pass_dictionary`: joins the type-specific row
(selected by the class type, defaulting to Generic), the text modules
(ordered by `display_order`; insertion order under the modelled operations)
and the messages, then emulates the legacy flattened `pass_data` dict. -/
def construct_pass_dictionary (st : Store) (core : PassesRow) : PassView :=
  let class_type :=
    match st.classes_table.find? (fun c => c.class_id == core.class_id) with
    | some c => c.class_type
    | none => "Generic"
  let et_data : Option EventTicketDataView :=
    if class_type == "EventTicket" then
      (st.event_ticket_fields.find? (fun r => r.object_id == core.object_id)).map fun f =>
        { ticketHolderName := f.ticket_holder_name, confirmationCode := f.confirmation_code,
          seatNumber := f.seat, «section» := f.section, gate := f.gate }
    else none
  let g_data : Option GenericDataView :=
    if class_type == "EventTicket" then none
    else
      (st.generic_fields.find? (fun r => r.object_id == core.object_id)).map fun f =>
        { header_value := f.header_value, subheader_value := f.subheader_value }
  let text_mods := st.pass_text_modules.filter (fun r => r.object_id == core.object_id)
  let tms : Option (List TextModuleInput) :=
    if text_mods.isEmpty then none
    else some (text_mods.map fun m => { id := m.module_id, header := m.header, body := m.body })
  let msgs := st.pass_messages.filter (fun r => r.object_id == core.object_id)
  let ms : Option (List MessageInput) :=
    if msgs.isEmpty then none
    else some (msgs.map fun m =>
      { id := m.message_id, header := m.header, body := m.body,
        messageType := m.message_type, start_date := m.start_date, end_date := m.end_date })
  -- legacy flattened pass_data view (lossy by design)
  let flatEvent : EventTicketDataDict :=
    match et_data with
    | some e => { ticketHolderName := e.ticketHolderName, confirmationCode := e.confirmationCode,
                  seatNumber := e.seatNumber, «section» := e.section, gate := e.gate }
    | none => {}
  let flatGeneric : GenericDataDict :=
    match g_data with
    | some g => { header_value := g.header_value, subheader_value := g.subheader_value }
    | none => {}
  { core := core, event_ticket_data := et_data, generic_data := g_data,
    textModulesData := tms, messages := ms,
    pass_data := { flat_event := flatEvent, flat_generic := flatGeneric,
                   textModulesData := tms, messages := ms } }

/-- `DatabaseManager.get_passes_by_class`. -/
def db_get_passes_by_class (st : Store) (class_id : String) : List PassView :=
  (st.passes_table.filter (fun r => r.class_id == class_id)).map
    (construct_pass_dictionary st)

/-- `DatabaseManager.get_all_passes`. -/
def db_get_all_passes (st : Store) : List PassView :=
  st.passes_table.map (construct_pass_dictionary st)

/-- `DatabaseManager.get_active_passes`: `WHERE status = 'Active'`. -/
def db_get_active_passes (st : Store) : List PassView :=
  (st.passes_table.filter (fun r => r.status == "Active")).map
    (construct_pass_dictionary st)

/-! ## services/class_update_service.py -/

/-- The summary dict returned by `propagate_class_update_to_passes`. -/
structure PropResult where
  updated_count : Nat
  failed_count : Nat
  total_count : Nat
  errors : List String
deriving Repr, DecidableEq

/-- One remote push of the fan-out: `wallet_client.update_pass_object`
applied to the prefixed object id, the prefixed class id, the pass dict and
the class type. The gateway call is the abstract parameter `push`. -/
def push_outcome (push : String → String → PassView → String → Except String Unit)
    (class_id class_type : String) (p : PassView) : Except String Unit :=
  push ((prepare_ids_to_try p.core.object_id).headD "")
       ((prepare_ids_to_try class_id).headD "") p class_type

/-- The `for pass_obj in passes` loop of `propagate_class_update_to_passes`:
on success append a `Sent` notification and bump `updated_count`; on failure
append a `Failed` notification with the error text, bump `failed_count`,
record the error message, and continue with the remaining passes. -/
def propagate_loop (push : String → String → PassView → String → Except String Unit)
    (class_id class_type : String) :
    List PassView → Store → PropResult → Store × PropResult
  | [], st, acc => (st, acc)
  | p :: ps, st, acc =>
    match push_outcome push class_id class_type p with
    | .ok _ =>
      let st := db_create_notification st class_id p.core.object_id "Sent"
        "Pass updated successfully via Google Wallet API"
      propagate_loop push class_id class_type ps st
        { acc with updated_count := acc.updated_count + 1 }
    | .error e =>
      let st := db_create_notification st class_id p.core.object_id "Failed" e
      propagate_loop push class_id class_type ps st
        { acc with failed_count := acc.failed_count + 1,
                   errors := acc.errors ++ ["Failed to update pass " ++ p.core.object_id ++ ": " ++ e] }

/-- `propagate_class_update_to_passes`: loads every pass of the class, sets
`total_count`, returns early when there are none, and otherwise pushes each
pass independently, recording one notification per pass. -/
def propagate_class_update_to_passes (st : Store) (class_id : String)
    (updated_class : ClassView)
    (push : String → String → PassView → String → Except String Unit) :
    Store × PropResult :=
  let passes := db_get_passes_by_class st class_id
  let result : PropResult :=
    { updated_count := 0, failed_count := 0, total_count := passes.length, errors := [] }
  if passes.isEmpty then (st, result)
  else
    let class_type := updated_class.class_type
    propagate_loop push class_id class_type passes st result

/-! ## api/api.py — the update_class and get_passes endpoints -/

/-- The remote gateway as consumed by the `update_class` endpoint:
`create_pass_class` (insert, patch on conflict) for the class document and
`update_pass_object` for the per-pass fan-out pushes. -/
structure Gateway where
  create_pass_class : JsonV → String → Except String Unit
  update_pass_object : String → String → PassView → String → Except String Unit

/-- The response messages produced by the `update_class` endpoint; each
constructor carries exactly the data the source interpolates into the
corresponding f-string. -/
inductive UpdateClassMessage where
  /-- partial sync: `Class updated! Notification sent to u/t users. f failed.` -/
  | partialSync (updated failed total : Nat)
  /-- full sync: `Class updated! Notification sent to u users.` -/
  | fullSync (updated : Nat)
  /-- `Class updated locally. Google Wallet sync failed: err` (success response). -/
  | syncFailed (err : String)
  /-- `Class <id> updated locally only (no wallet sync).` -/
  | localOnly (class_id : String)
deriving Repr, DecidableEq

/-- A `MessageResponse` body. -/
structure MessageResponse where
  message : UpdateClassMessage
  success : Bool
deriving Repr, DecidableEq

/-- An endpoint outcome: a response body or an `HTTPException`. -/
inductive ApiResult (α : Type) where
  | ok (value : α)
  | httpError (status : Nat) (detail : String)
deriving Repr, DecidableEq

/-- The `ClassUpdate` request body after `model_dump(exclude_unset=True)`:
the set relational fields plus the optional `class_json` document. -/
structure ClassUpdatePayload where
  fields : ClassUpdateKwargs := {}
  class_json : Option JsonV := none

/-- The metadata-merge step of the endpoint: every parsed key that is not
already in `update_data` and whose value is not `None` is merged in
(`class_id` is parsed too but popped from `update_data` before the store
call, so it does not appear here). -/
def merge_parsed_metadata (kw : ClassUpdateKwargs) (p : ParsedClassMeta) :
    ClassUpdateKwargs :=
  { class_type := orKey kw.class_type (some p.class_type)
    issuer_name := orKey kw.issuer_name p.issuer_name
    base_color := orKey kw.base_color p.base_color
    logo_url := orKey kw.logo_url p.logo_url
    hero_image_url := orKey kw.hero_image_url p.hero_image_url
    header_text := orKey kw.header_text p.header_text
    card_title := orKey kw.card_title p.card_title
    event_name := orKey kw.event_name p.event_name
    venue_name := orKey kw.venue_name p.venue_name
    venue_address := orKey kw.venue_address p.venue_address
    event_start := orKey kw.event_start p.event_start
    program_name := orKey kw.program_name p.program_name
    transit_type := orKey kw.transit_type p.transit_type
    transit_operator_name := orKey kw.transit_operator_name p.transit_operator_name }

/-- The `update_data` dict actually passed to the store: the set fields,
merged with metadata parsed from `class_json` when that key is present and
truthy (`class_id` is popped before the call). -/
def effective_update_data (class_data : ClassUpdatePayload) : ClassUpdateKwargs :=
  match class_data.class_json with
  | some j =>
    if j.truthy then merge_parsed_metadata class_data.fields (parse_google_wallet_class j)
    else class_data.fields
  | none => class_data.fields

/-- `api.update_class`: 404 when the class is absent, 400 when no field is
set; otherwise write locally, re-read and synthesize the class document,
and — when a gateway is available and the document truthy — upsert it
remotely and fan out to the passes. A remote failure after the local write
is downgraded to a success response carrying the error; without a gateway
(or with a non-truthy document) the endpoint reports a local-only success. -/
def update_class_endpoint (st : Store) (class_id : String)
    (class_data : ClassUpdatePayload) (wallet_client : Option Gateway) :
    Store × ApiResult MessageResponse :=
  match db_get_class st class_id with
  | none => (st, .httpError 404 ("Class " ++ class_id ++ " not found"))
  | some _ =>
    if !(class_data.fields.anyKey || class_data.class_json.isSome) then
      (st, .httpError 400 "No fields to update")
    else
      -- merge relational fields parsed from class_json, when provided
      let update_data := effective_update_data class_data
      -- Step 1: local write
      let st2 := (db_update_class st class_id update_data).1
      -- Step 2: re-read for the remote sync
      match db_get_class st2 class_id with
      | none => (st2, .httpError 500 "class row vanished")
      | some updated_class =>
        let class_json := build_class_json updated_class
        -- Step 3: sync and propagate, when possible
        match wallet_client with
        | some g =>
          if class_json.truthy then
            match g.create_pass_class class_json updated_class.class_type with
            | .error e => (st2, .ok { message := .syncFailed e, success := true })
            | .ok _ =>
              let pr := propagate_class_update_to_passes st2 class_id updated_class
                g.update_pass_object
              if pr.2.failed_count > 0 then
                (pr.1, .ok { message := .partialSync pr.2.updated_count pr.2.failed_count pr.2.total_count,
                             success := true })
              else
                (pr.1, .ok { message := .fullSync pr.2.updated_count, success := true })
          else (st2, .ok { message := .localOnly class_id, success := true })
        | none => (st2, .ok { message := .localOnly class_id, success := true })

/-- The methods defined on `DatabaseManager` (database/db_manager.py);
`get_expired_passes` is not among them. -/
def databaseManagerMethods : List String :=
  ["get_connection", "create_class", "get_class", "get_all_classes", "update_class",
   "delete_class", "create_pass", "get_pass", "get_pass_by_id", "get_passes_by_class",
   "get_all_passes", "get_active_passes", "get_passes_by_email", "update_pass",
   "update_pass_status", "delete_pass", "create_notification", "get_pass_with_class",
   "test_connection"]

/-- Outcome of the `get_passes` endpoint. -/
inductive PassesResult where
  | ok (passes : List PassView)
  | badRequest (detail : String)
  | serverError (detail : String)
deriving Repr, DecidableEq

/-- `api.get_passes`: dispatches on the optional status filter. The
`Expired` branch calls `db.get_expired_passes()`; `DatabaseManager` defines
no such attribute, so the call raises `AttributeError`, which the blanket
`except Exception` handler converts to an HTTP 500. -/
def get_passes_endpoint (st : Store) (status : Option String) : PassesResult :=
  match status with
  | some s =>
    if s == "Active" then .ok (db_get_active_passes st)
    else if s == "Expired" then
      if databaseManagerMethods.contains "get_expired_passes" then
        .ok []  -- unreachable: the attribute lookup fails before any query runs
      else
        .serverError "AttributeError: DatabaseManager object has no attribute get_expired_passes"
    else .badRequest "Status must be Active or Expired"
  | none => .ok (db_get_all_passes st)

/-! ## Shared helper lemmas -/

/-- A guarded row-update maps every row of a table to itself when no row
satisfies the guard. -/
theorem aux_map_if_not_found {α : Type} (p : α → Bool) (f : α → α) (l : List α)
    (h : ∀ a ∈ l, p a = false) :
    (l.map fun a => if p a then f a else a) = l := by
  induction l with
  | nil => rfl
  | cons x xs ih =>
    have hx := h x (by simp)
    simp only [List.map_cons, hx, if_neg Bool.false_ne_true, List.cons.injEq, true_and]
    exact ih fun a ha => h a (by simp [ha])

/-- `find?` commutes with a map that preserves the predicate. -/
theorem aux_find?_map {α : Type} (g : α → α) (p : α → Bool) (l : List α)
    (h : ∀ a, p (g a) = p a) : (l.map g).find? p = (l.find? p).map g := by
  induction l with
  | nil => rfl
  | cons x xs ih =>
    by_cases hp : p x = true
    · rw [List.map_cons, List.find?_cons_of_pos _ (by rw [h x]; exact hp),
          List.find?_cons_of_pos _ hp]
      rfl
    · rw [List.map_cons, List.find?_cons_of_neg _ (by rw [h x]; simpa using hp),
          List.find?_cons_of_neg _ (by simpa using hp), ih]

/-! ## C6 -/

/-- C6 counterexample: the code first strips surrounding whitespace, so for
`rawId = " X"` the candidate list is built from the trimmed id, not from
`rawId` itself as the claim states. -/
theorem claim_C6_counterexample :
    prepare_ids_to_try " X" = ["3388000000023033675.X", "X"] ∧
    ["3388000000023033675.X", "X"] ≠ ["3388000000023033675. X", " X"] := by
  exact ⟨rfl, by decide⟩

/-- C6 (amended): for every rawId without surrounding whitespace, the
candidate list is `[rawId]` when it already starts with the issuer prefix
and `[prefix ++ "." ++ rawId, rawId]` otherwise; a rawId with surrounding
whitespace is stripped first. -/
theorem claim_C6 (rawId : String) (h : py_strip rawId = rawId) :
    (py_startswith rawId ISSUER_ID = true → prepare_ids_to_try rawId = [rawId]) ∧
    (py_startswith rawId ISSUER_ID = false →
      prepare_ids_to_try rawId = [ISSUER_ID ++ "." ++ rawId, rawId]) := by
  unfold prepare_ids_to_try
  rw [h]
  constructor <;> intro hs <;> simp [hs]

theorem claim_C6_witness :
    (py_strip "X" = "X") ∧
    prepare_ids_to_try "X" = [ISSUER_ID ++ "." ++ "X", "X"] ∧
    (py_strip "3388000000023033675.X" = "3388000000023033675.X") ∧
    prepare_ids_to_try "3388000000023033675.X" = ["3388000000023033675.X"] :=
  ⟨by decide, (claim_C6 "X" (by decide)).2 (by decide),
   by decide, (claim_C6 "3388000000023033675.X" (by decide)).1 (by decide)⟩

/-! ## C1 -/

/-- C1 counterexample: parsing the document synthesized from a LoyaltyCard
row detects class type `Generic` (the synthesizer emits
`localizedProgramName` while the detector keys on `programName`), and a
row with an absent background color comes back with the placeholder
default instead of the absent value, so
`parseProviderDocument(synthesizeClassDocument(x)) == x` fails as stated. -/
theorem claim_C1_counterexample :
    (parse_google_wallet_class (build_class_json
      { class_id := "loy1", class_type := "LoyaltyCard", issuer_name := some "Biz",
        base_color := some "#111111", logo_url := some "http://logo",
        hero_image_url := some "http://hero",
        program_name := some "Gold Club" })).class_type = "Generic" ∧
    ("Generic" : String) ≠ "LoyaltyCard" ∧
    (parse_google_wallet_class (build_class_json
      { class_id := "gen2", class_type := "Generic" })).base_color = some "#4285f4" ∧
    some "#4285f4" ≠ (none : Option String) := by
  exact ⟨rfl, by decide, rfl, by decide⟩

/-- C1 (amended): for rows whose stored fields are all present, parsing the
synthesized document recovers the four common fields for every class type
and the type-specific fields header/card-title (Generic), event
name/venue/address/start (EventTicket), program name (LoyaltyCard) and
transit type (TransitPass); the class type itself round-trips for Generic,
EventTicket and TransitPass, while LoyaltyCard and GiftCard documents are
re-detected as Generic and the transit operator name is dropped. -/
theorem claim_C1 (cid i b l hu he ct ev vn va es pn tt topn : String) :
    ((parse_google_wallet_class (build_class_json
        { class_id := cid, class_type := "Generic", issuer_name := some i,
          base_color := some b, logo_url := some l, hero_image_url := some hu,
          header := some he, card_title := some ct })) =
      { class_id := (parse_google_wallet_class (build_class_json
          { class_id := cid, class_type := "Generic", issuer_name := some i,
            base_color := some b, logo_url := some l, hero_image_url := some hu,
            header := some he, card_title := some ct })).class_id,
        class_type := "Generic", issuer_name := some i, base_color := some b,
        logo_url := some l, hero_image_url := some hu, header_text := some he,
        card_title := some ct, event_name := none, venue_name := none,
        venue_address := none, event_start := none, program_name := none,
        transit_type := none, transit_operator_name := none }) ∧
    ((parse_google_wallet_class (build_class_json
        { class_id := cid, class_type := "EventTicket", issuer_name := some i,
          base_color := some b, logo_url := some l, hero_image_url := some hu,
          event_name := some ev, venue_name := some vn, venue_address := some va,
          event_start := some es })) =
      { class_id := (parse_google_wallet_class (build_class_json
          { class_id := cid, class_type := "EventTicket", issuer_name := some i,
            base_color := some b, logo_url := some l, hero_image_url := some hu,
            event_name := some ev, venue_name := some vn, venue_address := some va,
            event_start := some es })).class_id,
        class_type := "EventTicket", issuer_name := some i, base_color := some b,
        logo_url := some l, hero_image_url := some hu, header_text := none,
        card_title := none, event_name := some ev, venue_name := some vn,
        venue_address := some va, event_start := some es, program_name := none,
        transit_type := none, transit_operator_name := none }) ∧
    ((parse_google_wallet_class (build_class_json
        { class_id := cid, class_type := "LoyaltyCard", issuer_name := some i,
          base_color := some b, logo_url := some l, hero_image_url := some hu,
          program_name := some pn })) =
      { class_id := (parse_google_wallet_class (build_class_json
          { class_id := cid, class_type := "LoyaltyCard", issuer_name := some i,
            base_color := some b, logo_url := some l, hero_image_url := some hu,
            program_name := some pn })).class_id,
        class_type := "Generic", issuer_name := some i, base_color := some b,
        logo_url := some l, hero_image_url := some hu, header_text := none,
        card_title := none, event_name := none, venue_name := none,
        venue_address := none, event_start := none, program_name := some pn,
        transit_type := none, transit_operator_name := none }) ∧
    ((parse_google_wallet_class (build_class_json
        { class_id := cid, class_type := "GiftCard", issuer_name := some i,
          base_color := some b, logo_url := some l, hero_image_url := some hu })) =
      { class_id := (parse_google_wallet_class (build_class_json
          { class_id := cid, class_type := "GiftCard", issuer_name := some i,
            base_color := some b, logo_url := some l,
            hero_image_url := some hu })).class_id,
        class_type := "Generic", issuer_name := some i, base_color := some b,
        logo_url := some l, hero_image_url := some hu, header_text := none,
        card_title := none, event_name := none, venue_name := none,
        venue_address := none, event_start := none, program_name := none,
        transit_type := none, transit_operator_name := none }) ∧
    ((parse_google_wallet_class (build_class_json
        { class_id := cid, class_type := "TransitPass", issuer_name := some i,
          base_color := some b, logo_url := some l, hero_image_url := some hu,
          transit_type := some tt, transit_operator_name := some topn })) =
      { class_id := (parse_google_wallet_class (build_class_json
          { class_id := cid, class_type := "TransitPass", issuer_name := some i,
            base_color := some b, logo_url := some l, hero_image_url := some hu,
            transit_type := some tt, transit_operator_name := some topn })).class_id,
        class_type := "TransitPass", issuer_name := some i, base_color := some b,
        logo_url := some l, hero_image_url := some hu, header_text := none,
        card_title := none, event_name := none, venue_name := none,
        venue_address := none, event_start := none, program_name := none,
        transit_type := some tt, transit_operator_name := none }) := by
  exact ⟨rfl, rfl, rfl, rfl, rfl⟩

/-! ## C7 -/

/-- C7 (code bug): filtering by `Active` returns exactly the instances with
status Active, but filtering by `Expired` does not succeed: the handler
calls the nonexistent `DatabaseManager.get_expired_passes`, raising
`AttributeError`, which surfaces as an HTTP 500 instead of the Expired
instances. -/
theorem claim_C7 (st : Store) :
    get_passes_endpoint st (some "Active") =
      .ok ((st.passes_table.filter (fun r => r.status == "Active")).map
        (construct_pass_dictionary st)) ∧
    get_passes_endpoint st (some "Expired") =
      .serverError "AttributeError: DatabaseManager object has no attribute get_expired_passes" := by
  exact ⟨rfl, rfl⟩

/-! ## C2 -/

/-- Whether the remote push of one pass succeeds. -/
def push_ok (push : String → String → PassView → String → Except String Unit)
    (class_id class_type : String) (p : PassView) : Bool :=
  match push_outcome push class_id class_type p with
  | .ok _ => true
  | .error _ => false

/-- The notification row the fan-out appends for one pass: `Sent` on
success, `Failed` with the error text on failure. -/
def expected_notification (push : String → String → PassView → String → Except String Unit)
    (class_id class_type : String) (p : PassView) : NotificationRow :=
  match push_outcome push class_id class_type p with
  | .ok _ => { class_id := class_id, object_id := p.core.object_id, status := "Sent",
               message := "Pass updated successfully via Google Wallet API" }
  | .error e => { class_id := class_id, object_id := p.core.object_id, status := "Failed",
                  message := e }

/-- The error string recorded for a failed pass. -/
def push_error_msg (push : String → String → PassView → String → Except String Unit)
    (class_id class_type : String) (p : PassView) : String :=
  match push_outcome push class_id class_type p with
  | .ok _ => ""
  | .error e => "Failed to update pass " ++ p.core.object_id ++ ": " ++ e

theorem aux_length_filter_not {α : Type} (p : α → Bool) (l : List α) :
    (l.filter p).length + (l.filter fun a => !(p a)).length = l.length := by
  induction l with
  | nil => rfl
  | cons x xs ih =>
    cases hx : p x <;> simp [List.filter_cons, hx] <;> omega

/-- Full characterization of the fan-out loop: one notification per pass in
order, counts accumulated per outcome, error strings for the failures, and
no other table touched. -/
theorem aux_propagate_loop_spec
    (push : String → String → PassView → String → Except String Unit)
    (class_id class_type : String) (ps : List PassView) (st : Store) (acc : PropResult) :
    propagate_loop push class_id class_type ps st acc =
      ({ st with notifications_table := st.notifications_table ++
            ps.map (expected_notification push class_id class_type) },
       { updated_count := acc.updated_count +
            (ps.filter (push_ok push class_id class_type)).length,
         failed_count := acc.failed_count +
            (ps.filter fun p => !(push_ok push class_id class_type p)).length,
         total_count := acc.total_count,
         errors := acc.errors ++
            (ps.filter fun p => !(push_ok push class_id class_type p)).map
              (push_error_msg push class_id class_type) }) := by
  induction ps generalizing st acc with
  | nil => simp [propagate_loop]
  | cons p ps ih =>
    unfold propagate_loop
    cases hp : push_outcome push class_id class_type p with
    | ok u =>
      dsimp only
      rw [ih]
      simp only [db_create_notification, List.filter_cons, List.map_cons,
        push_ok, expected_notification, push_error_msg, hp]
      simp [List.append_assoc, Nat.add_assoc, Nat.add_comm 1]
    | error e =>
      dsimp only
      rw [ih]
      simp only [db_create_notification, List.filter_cons, List.map_cons,
        push_ok, expected_notification, push_error_msg, hp]
      simp [List.append_assoc, Nat.add_assoc, Nat.add_comm 1]
      simp [push_error_msg, hp]

/-- C2: a template with N instances of which k fail their remote push
yields updatedCount = N - k, failedCount = k, totalCount = N, exactly one
notification row appended per instance (Sent on success, Failed with the
error text on failure, in pass order), and no other table is modified — a
failure never aborts or skips the remaining instances. -/
theorem claim_C2 (st : Store) (class_id : String) (updated_class : ClassView)
    (push : String → String → PassView → String → Except String Unit) :
    (propagate_class_update_to_passes st class_id updated_class push).2.total_count =
      (db_get_passes_by_class st class_id).length ∧
    (propagate_class_update_to_passes st class_id updated_class push).2.failed_count =
      ((db_get_passes_by_class st class_id).filter
        (fun p => !(push_ok push class_id updated_class.class_type p))).length ∧
    (propagate_class_update_to_passes st class_id updated_class push).2.updated_count =
      (db_get_passes_by_class st class_id).length -
      ((db_get_passes_by_class st class_id).filter
        (fun p => !(push_ok push class_id updated_class.class_type p))).length ∧
    (propagate_class_update_to_passes st class_id updated_class push).1.notifications_table =
      st.notifications_table ++ (db_get_passes_by_class st class_id).map
        (expected_notification push class_id updated_class.class_type) ∧
    (propagate_class_update_to_passes st class_id updated_class push).1.passes_table =
      st.passes_table := by
  unfold propagate_class_update_to_passes
  by_cases hemp : (db_get_passes_by_class st class_id).isEmpty
  · rw [if_pos hemp]
    rw [List.isEmpty_iff] at hemp
    simp [hemp]
  · rw [if_neg hemp]
    rw [aux_propagate_loop_spec]
    have hlen := aux_length_filter_not (push_ok push class_id updated_class.class_type)
      (db_get_passes_by_class st class_id)
    refine ⟨rfl, by simp, by simp; omega, by simp, rfl⟩

/-! ## C3 -/

theorem aux_core_step_text_modules (st : Store) (oid : String) (kw : PassUpdateKwargs) :
    (update_pass_core_step st oid kw).pass_text_modules = st.pass_text_modules := by
  unfold update_pass_core_step
  split <;> rfl

theorem aux_core_step_messages (st : Store) (oid : String) (kw : PassUpdateKwargs) :
    (update_pass_core_step st oid kw).pass_messages = st.pass_messages := by
  unfold update_pass_core_step
  split <;> rfl

theorem aux_scalar_step_text_modules (st : Store) (oid ct : String) (pd : PassDataDict) :
    (update_pass_scalar_step st oid ct pd).pass_text_modules = st.pass_text_modules := by
  unfold update_pass_scalar_step
  split_ifs <;> rfl

theorem aux_scalar_step_messages (st : Store) (oid ct : String) (pd : PassDataDict) :
    (update_pass_scalar_step st oid ct pd).pass_messages = st.pass_messages := by
  unfold update_pass_scalar_step
  split_ifs <;> rfl

theorem aux_arrays_step_tm_present (st : Store) (oid : String) (pd : PassDataDict)
    (h : (pd.textModulesData.isSome || pd.text_modules.isSome) = true) :
    (update_pass_arrays_step st oid pd).pass_text_modules =
      st.pass_text_modules.filter (fun r => !(r.object_id == oid)) ++
      textModuleRows oid (pd.textModulesData.getD (pd.text_modules.getD [])) := by
  unfold update_pass_arrays_step
  dsimp only
  rw [if_pos h]
  split <;> rfl

theorem aux_arrays_step_tm_absent (st : Store) (oid : String) (pd : PassDataDict)
    (h1 : pd.textModulesData = none) (h2 : pd.text_modules = none) :
    (update_pass_arrays_step st oid pd).pass_text_modules = st.pass_text_modules := by
  unfold update_pass_arrays_step
  dsimp only
  rw [if_neg (show ¬ ((pd.textModulesData.isSome || pd.text_modules.isSome) = true) by
    simp [h1, h2])]
  split <;> rfl

theorem aux_arrays_step_msg_present (st : Store) (oid : String) (pd : PassDataDict)
    (h : pd.messages.isSome = true) :
    (update_pass_arrays_step st oid pd).pass_messages =
      st.pass_messages.filter (fun r => !(r.object_id == oid)) ++
      (pd.messages.getD []).map (messageRow oid) := by
  unfold update_pass_arrays_step
  dsimp only
  rw [if_pos h]
  split <;> rfl

theorem aux_arrays_step_msg_absent (st : Store) (oid : String) (pd : PassDataDict)
    (h1 : pd.messages = none) :
    (update_pass_arrays_step st oid pd).pass_messages = st.pass_messages := by
  unfold update_pass_arrays_step
  dsimp only
  rw [if_neg (show ¬ (pd.messages.isSome = true) by simp [h1])]
  split <;> rfl

/-- The core-column update keeps `find?` on the pass table defined, since it
preserves every row's `object_id`. -/
theorem aux_core_step_find? (st : Store) (oid : String) (kw : PassUpdateKwargs) :
    ((update_pass_core_step st oid kw).passes_table.find?
        (fun r => r.object_id == oid)).isSome =
    (st.passes_table.find? (fun r => r.object_id == oid)).isSome := by
  unfold update_pass_core_step
  split
  · rw [show (fun r : PassesRow => if r.object_id == oid then
        { r with holder_name := kw.holder_name.getD r.holder_name
                 holder_email := kw.holder_email.getD r.holder_email
                 status := kw.status.getD r.status
                 sync_status := kw.sync_status.getD r.sync_status
                 last_synced_at := orKey kw.last_synced_at r.last_synced_at }
      else r) = (fun r => if r.object_id == oid then
        { r with holder_name := kw.holder_name.getD r.holder_name
                 holder_email := kw.holder_email.getD r.holder_email
                 status := kw.status.getD r.status
                 sync_status := kw.sync_status.getD r.sync_status
                 last_synced_at := orKey kw.last_synced_at r.last_synced_at }
      else r) from rfl]
    rw [aux_find?_map _ _ _ fun a => by
      by_cases ha : (a.object_id == oid) = true <;> simp [ha]]
    cases st.passes_table.find? (fun r => r.object_id == oid) <;> rfl
  · rfl

/-- C3: an instance update whose payload contains an array-collection key
replaces that collection wholesale — all prior rows of the instance are
deleted, exactly the supplied entries are inserted (an empty list therefore
clears the collection) — while a payload that omits the key leaves the
collection untouched. -/
theorem claim_C3 (st : Store) (oid : String) (kw : PassUpdateKwargs) (pd : PassDataDict)
    (hpd : kw.pass_data = some pd)
    (hex : (st.passes_table.find? (fun r => r.object_id == oid)).isSome = true) :
    ((pd.textModulesData.isSome || pd.text_modules.isSome) = true →
      (db_update_pass st oid kw).1.pass_text_modules =
        st.pass_text_modules.filter (fun r => !(r.object_id == oid)) ++
        textModuleRows oid (pd.textModulesData.getD (pd.text_modules.getD []))) ∧
    (pd.textModulesData = none → pd.text_modules = none →
      (db_update_pass st oid kw).1.pass_text_modules = st.pass_text_modules) ∧
    (pd.messages.isSome = true →
      (db_update_pass st oid kw).1.pass_messages =
        st.pass_messages.filter (fun r => !(r.object_id == oid)) ++
        (pd.messages.getD []).map (messageRow oid)) ∧
    (pd.messages = none →
      (db_update_pass st oid kw).1.pass_messages = st.pass_messages) := by
  have hfind : ((update_pass_core_step st oid kw).passes_table.find?
      (fun r => r.object_id == oid)).isSome = true := by
    rw [aux_core_step_find?]
    exact hex
  obtain ⟨prow, hprow⟩ := Option.isSome_iff_exists.mp hfind
  unfold db_update_pass
  rw [hpd]
  dsimp only
  refine ⟨?_, ?_, ?_, ?_⟩
  · intro harr
    have htr : pd.truthy = true := by
      revert harr
      unfold PassDataDict.truthy
      cases pd.textModulesData.isSome <;> cases pd.text_modules.isSome <;> simp
    rw [if_pos htr, hprow]
    dsimp only
    rw [aux_arrays_step_tm_present _ _ _ harr, aux_scalar_step_text_modules,
      aux_core_step_text_modules]
  · intro h1 h2
    cases htr : pd.truthy
    · rw [if_neg (by simp [htr])]
      exact aux_core_step_text_modules st oid kw
    · rw [if_pos rfl, hprow]
      dsimp only
      rw [aux_arrays_step_tm_absent _ _ _ h1 h2, aux_scalar_step_text_modules,
        aux_core_step_text_modules]
  · intro hmsg
    have htr : pd.truthy = true := by
      revert hmsg
      unfold PassDataDict.truthy
      cases pd.messages.isSome <;> simp
    rw [if_pos htr, hprow]
    dsimp only
    rw [aux_arrays_step_msg_present _ _ _ hmsg, aux_scalar_step_messages,
      aux_core_step_messages]
  · intro h1
    cases htr : pd.truthy
    · rw [if_neg (by simp [htr])]
      exact aux_core_step_messages st oid kw
    · rw [if_pos rfl, hprow]
      dsimp only
      rw [aux_arrays_step_msg_absent _ _ _ h1, aux_scalar_step_messages,
        aux_core_step_messages]

/-- A concrete store for the C3 witness: one class, one pass, one existing
text-module row and one existing message row. -/
def c3_pass_row : PassesRow :=
  { object_id := "p1", class_id := "c1", holder_name := "Jane",
    holder_email := "jane@example.com", status := "Active", sync_status := "pending" }

def c3_module_row : PassTextModuleRow :=
  { object_id := "p1", module_id := some "m1", header := some "H",
    body := some "B", display_order := 0 }

def c3_store : Store :=
  { classes_table := [{ class_id := "c1", class_type := "Generic" }],
    passes_table := [c3_pass_row],
    pass_text_modules := [c3_module_row],
    pass_messages := [{ object_id := "p1", message_id := some "g1" }] }

/-- The C3 witness payload: text modules set to the empty list, messages key
absent. -/
def c3_pd : PassDataDict := { textModulesData := some [] }

def c3_kw : PassUpdateKwargs := { pass_data := some c3_pd }

theorem claim_C3_witness :
    ((c3_pd.textModulesData.isSome || c3_pd.text_modules.isSome) = true) ∧
    (db_update_pass c3_store "p1" c3_kw).1.pass_text_modules =
      c3_store.pass_text_modules.filter (fun r => !(r.object_id == "p1")) ++
      textModuleRows "p1" (c3_pd.textModulesData.getD (c3_pd.text_modules.getD [])) ∧
    (db_update_pass c3_store "p1" c3_kw).1.pass_messages = c3_store.pass_messages :=
  ⟨rfl, (claim_C3 c3_store "p1" c3_kw c3_pd rfl rfl).1 rfl,
        (claim_C3 c3_store "p1" c3_kw c3_pd rfl rfl).2.2.2 rfl⟩

/-! ## C4 and C5 — resolver analysis

The nested candidate/resource loops are analysed through their flattening
into the candidate-major, resource-minor sequence of probes they perform. -/

/-- The probe sequence of the nested loops: every resource for the first
candidate id, then every resource for the next. -/
def flatPairs : List String → List String → List (String × String)
  | [], _ => []
  | i :: is, rs => rs.map (fun r => (i, r)) ++ flatPairs is rs

/-- Linear scan over a probe sequence, threading `last_error` exactly as the
nested loops do. -/
def scanPairs (probe : String → String → ProbeOutcome) (nonFatal : Nat → Bool) :
    List (String × String) → Option HttpErr → ScanResult
  | [], last => .exhausted last
  | q :: qs, _last =>
    match probe q.1 q.2 with
    | .ok d => .found d
    | .err e => if nonFatal e.status then scanPairs probe nonFatal qs (some e)
                else .fatal e

theorem aux_probe_resources_eq_scan (probe : String → String → ProbeOutcome)
    (nf : Nat → Bool) (oid : String) (rs : List String) (last : Option HttpErr) :
    probe_resources probe nf oid rs last =
      scanPairs probe nf (rs.map (fun r => (oid, r))) last := by
  induction rs generalizing last with
  | nil => rfl
  | cons r rs ih =>
    simp only [probe_resources, List.map_cons, scanPairs]
    cases probe oid r with
    | ok d => rfl
    | err e =>
      by_cases hnf : nf e.status = true
      · simp only [hnf, if_pos]
        exact ih _
      · simp only [Bool.not_eq_true] at hnf
        simp [hnf]

theorem aux_scanPairs_append (probe : String → String → ProbeOutcome)
    (nf : Nat → Bool) (l1 l2 : List (String × String)) (last : Option HttpErr) :
    scanPairs probe nf (l1 ++ l2) last =
      match scanPairs probe nf l1 last with
      | .found d => .found d
      | .fatal e => .fatal e
      | .exhausted l3 => scanPairs probe nf l2 l3 := by
  induction l1 generalizing last with
  | nil => rfl
  | cons q qs ih =>
    simp only [List.cons_append, scanPairs]
    cases probe q.1 q.2 with
    | ok d => rfl
    | err e =>
      by_cases hnf : nf e.status = true
      · simp only [hnf, if_pos]
        exact ih _
      · simp only [Bool.not_eq_true] at hnf
        simp [hnf]

theorem aux_probe_candidates_eq_scan (probe : String → String → ProbeOutcome)
    (nf : Nat → Bool) (rs : List String) (ids : List String) (last : Option HttpErr) :
    probe_candidates probe nf rs ids last =
      scanPairs probe nf (flatPairs ids rs) last := by
  induction ids generalizing last with
  | nil => rfl
  | cons oid oids ih =>
    simp only [probe_candidates, flatPairs, aux_scanPairs_append,
      ← aux_probe_resources_eq_scan]
    cases probe_resources probe nf oid rs last with
    | found d => rfl
    | fatal e => rfl
    | exhausted l3 => exact ih _

/-- First success wins: when every earlier probe fails non-fatally, the scan
returns the first successful document. -/
theorem aux_scan_first_success (probe : String → String → ProbeOutcome)
    (nf : Nat → Bool) (pre post : List (String × String)) (q : String × String)
    (d : JsonV) (last : Option HttpErr)
    (hpre : ∀ x ∈ pre, ∃ e, probe x.1 x.2 = .err e ∧ nf e.status = true)
    (hq : probe q.1 q.2 = .ok d) :
    scanPairs probe nf (pre ++ q :: post) last = .found d := by
  induction pre generalizing last with
  | nil => simp [scanPairs, hq]
  | cons x xs ih =>
    obtain ⟨e, he, hnf⟩ := hpre x (by simp)
    simp only [List.cons_append, scanPairs, he, hnf, if_pos]
    exact ih _ (fun y hy => hpre y (by simp [hy]))

/-- A fatal outcome aborts immediately once reached. -/
theorem aux_scan_fatal (probe : String → String → ProbeOutcome)
    (nf : Nat → Bool) (pre post : List (String × String)) (q : String × String)
    (e : HttpErr) (last : Option HttpErr)
    (hpre : ∀ x ∈ pre, ∃ e2, probe x.1 x.2 = .err e2 ∧ nf e2.status = true)
    (hq : probe q.1 q.2 = .err e) (hfatal : nf e.status = false) :
    scanPairs probe nf (pre ++ q :: post) last = .fatal e := by
  induction pre generalizing last with
  | nil => simp [scanPairs, hq, hfatal]
  | cons x xs ih =>
    obtain ⟨e2, he2, hnf⟩ := hpre x (by simp)
    simp only [List.cons_append, scanPairs, he2, hnf, if_pos]
    exact ih _ (fun y hy => hpre y (by simp [hy]))

/-- When every probe fails non-fatally with a 404, the scan exhausts and the
stored last error (when the sequence is nonempty) is one of those 404s. -/
theorem aux_scan_all_nonfatal (probe : String → String → ProbeOutcome)
    (nf : Nat → Bool) (ps : List (String × String)) (last : Option HttpErr)
    (h : ∀ x ∈ ps, ∃ e, probe x.1 x.2 = .err e ∧ nf e.status = true ∧ e.status = 404) :
    ∃ l2, scanPairs probe nf ps last = .exhausted l2 ∧
      ((l2 = last ∧ ps = []) ∨ ∃ e, l2 = some e ∧ e.status = 404) := by
  induction ps generalizing last with
  | nil => exact ⟨last, rfl, Or.inl ⟨rfl, rfl⟩⟩
  | cons q qs ih =>
    obtain ⟨e, he, hnf, h404⟩ := h q (by simp)
    obtain ⟨l2, hscan, hcase⟩ := ih (some e) (fun y hy => h y (by simp [hy]))
    refine ⟨l2, ?_, ?_⟩
    · simp only [scanPairs, he, hnf, if_pos]
      exact hscan
    · rcases hcase with ⟨hl, _⟩ | he2
      · exact Or.inr ⟨e, hl, h404⟩
      · exact Or.inr he2

theorem aux_prepare_ne_nil (raw : String) : prepare_ids_to_try raw ≠ [] := by
  unfold prepare_ids_to_try
  dsimp only
  split <;> simp

theorem aux_flatPairs_ne_nil (ids rs : List String) (h1 : ids ≠ []) (h2 : rs ≠ []) :
    flatPairs ids rs ≠ [] := by
  cases ids with
  | nil => exact absurd rfl h1
  | cons i is =>
    cases rs with
    | nil => exact absurd rfl h2
    | cons r rs2 => simp [flatPairs]

/-- The C4 counterexample probe: a bad request on the first object resource,
success on any other resource. -/
def c4_probe : String → String → ProbeOutcome := fun _ r =>
  if r == "genericobject" then .err { status := 400, content := "bad request" }
  else .ok (.str "doc")

/-- C4 counterexample: a bad-request outcome is NOT non-fatal in the
instance lookup — `get_object` aborts on the very first 400 even though the
next resource subtype would have succeeded, contradicting the claim that
both lookups advance past bad requests and differ only in the probed
subtypes. -/
theorem claim_C4_counterexample :
    c4_probe "3388000000023033675.X" "loyaltyobject" = .ok (.str "doc") ∧
    get_object "X" c4_probe =
      .error (.http { status := 400, content := "bad request" }) := by
  exact ⟨rfl, rfl⟩

/-- C4 (amended): both lookups try each candidate id against each resource
subtype in a fixed candidate-major, resource-minor order and return the
first successful get; a not-found (404) outcome is non-fatal in both, but a
bad-request (400) outcome is non-fatal only in the template (class) lookup —
the instance (object) lookup aborts on it; any other error aborts both
immediately. The two lookups also differ in the shape of the final error. -/
theorem claim_C4 (probe : String → String → ProbeOutcome) (raw : String)
    (pre post : List (String × String)) (q : String × String) (d : JsonV) (e : HttpErr) :
    (flatPairs (prepare_ids_to_try raw) object_resources = pre ++ q :: post →
      (∀ x ∈ pre, ∃ e2, probe x.1 x.2 = .err e2 ∧ e2.status = 404) →
      ((probe q.1 q.2 = .ok d → get_object raw probe = .ok d) ∧
       (probe q.1 q.2 = .err e → e.status ≠ 404 →
         get_object raw probe = .error (.http e)))) ∧
    (flatPairs (prepare_ids_to_try raw) class_resources = pre ++ q :: post →
      (∀ x ∈ pre, ∃ e2, probe x.1 x.2 = .err e2 ∧ (e2.status = 404 ∨ e2.status = 400)) →
      ((probe q.1 q.2 = .ok d → get_class raw probe = .ok d) ∧
       (probe q.1 q.2 = .err e → e.status ≠ 404 → e.status ≠ 400 →
         get_class raw probe = .error (.http e)))) := by
  constructor
  · intro hsplit hpre
    have hpre2 : ∀ x ∈ pre, ∃ e2, probe x.1 x.2 = .err e2 ∧
        ((fun s => s == 404) e2.status) = true := by
      intro x hx
      obtain ⟨e2, he2, hs⟩ := hpre x hx
      exact ⟨e2, he2, by simp [hs]⟩
    constructor
    · intro hq
      unfold get_object
      dsimp only
      rw [aux_probe_candidates_eq_scan, hsplit,
        aux_scan_first_success probe _ pre post q d none hpre2 hq]
    · intro hq hne
      unfold get_object
      dsimp only
      rw [aux_probe_candidates_eq_scan, hsplit,
        aux_scan_fatal probe _ pre post q e none hpre2 hq (by simp [hne])]
  · intro hsplit hpre
    have hpre2 : ∀ x ∈ pre, ∃ e2, probe x.1 x.2 = .err e2 ∧
        ((fun s => s == 404 || s == 400) e2.status) = true := by
      intro x hx
      obtain ⟨e2, he2, hs⟩ := hpre x hx
      rcases hs with hs | hs <;> exact ⟨e2, he2, by simp [hs]⟩
    constructor
    · intro hq
      unfold get_class
      dsimp only
      rw [aux_probe_candidates_eq_scan, hsplit,
        aux_scan_first_success probe _ pre post q d none hpre2 hq]
    · intro hq hne4 hne0
      unfold get_class
      dsimp only
      rw [aux_probe_candidates_eq_scan, hsplit,
        aux_scan_fatal probe _ pre post q e none hpre2 hq (by simp [hne4, hne0])]

/-- The all-successful probe used to exercise the C4 first-success case. -/
def c4_ok_probe : String → String → ProbeOutcome := fun _ _ => .ok (.str "d")

theorem claim_C4_witness :
    get_object "X" c4_ok_probe = .ok (.str "d") ∧
    get_class "X" c4_ok_probe = .ok (.str "d") :=
  ⟨((claim_C4 c4_ok_probe "X" []
      (flatPairs (prepare_ids_to_try "X") object_resources).tail
      ("3388000000023033675.X", "genericobject") (.str "d")
      { status := 404, content := "" }).1 rfl (by simp)).1 rfl,
   ((claim_C4 c4_ok_probe "X" []
      (flatPairs (prepare_ids_to_try "X") class_resources).tail
      ("3388000000023033675.X", "genericclass") (.str "d")
      { status := 404, content := "" }).2 rfl (by simp)).1 rfl⟩

/-- The all-404 probe used for C5. -/
def c5_probe : String → String → ProbeOutcome := fun _ _ =>
  .err { status := 404, content := "nf" }

/-- C5 counterexample: when every probe returns a non-fatal not-found, the
class lookup raises the aggregate error listing both candidates, but the
object lookup merely re-raises the last stored `HttpError` — a
single-candidate error, not an aggregate one — so the claim fails for the
instance lookup it also covers. -/
theorem claim_C5_counterexample :
    get_object "X" c5_probe = .error (.http { status := 404, content := "nf" }) ∧
    get_class "X" c5_probe =
      .error (.classNotFoundAggregate ["3388000000023033675.X", "X"] "nf") ∧
    WalletError.http { status := 404, content := "nf" } ≠
      .classNotFoundAggregate ["3388000000023033675.X", "X"] "nf" := by
  exact ⟨rfl, rfl, by decide⟩

/-- C5 (amended): when every probe of every candidate id returns a
non-fatal not-found, the template (class) lookup fails with the aggregate
NotFound error carrying the full candidate list, while the instance
(object) lookup re-raises the last stored 404 `HttpError` unchanged. -/
theorem claim_C5 (raw : String) (probe : String → String → ProbeOutcome)
    (h : ∀ i r, ∃ e, probe i r = .err e ∧ e.status = 404) :
    (∃ details, get_class raw probe =
      .error (.classNotFoundAggregate (prepare_ids_to_try raw) details)) ∧
    (∃ e, get_object raw probe = .error (.http e) ∧ e.status = 404) := by
  constructor
  · have hall : ∀ x ∈ flatPairs (prepare_ids_to_try raw) class_resources,
        ∃ e, probe x.1 x.2 = .err e ∧
          ((fun s => s == 404 || s == 400) e.status) = true ∧ e.status = 404 := by
      intro x _
      obtain ⟨e, he, hs⟩ := h x.1 x.2
      exact ⟨e, he, by simp [hs], hs⟩
    obtain ⟨l2, hscan, hcase⟩ :=
      aux_scan_all_nonfatal probe (fun s => s == 404 || s == 400)
        (flatPairs (prepare_ids_to_try raw) class_resources) none hall
    rcases hcase with ⟨_, hnil⟩ | ⟨e, hl, _⟩
    · exact absurd hnil (aux_flatPairs_ne_nil _ _ (aux_prepare_ne_nil raw) (by simp [class_resources]))
    · refine ⟨e.content, ?_⟩
      unfold get_class
      dsimp only
      rw [aux_probe_candidates_eq_scan, hscan, hl]
  · have hall : ∀ x ∈ flatPairs (prepare_ids_to_try raw) object_resources,
        ∃ e, probe x.1 x.2 = .err e ∧
          ((fun s => s == 404) e.status) = true ∧ e.status = 404 := by
      intro x _
      obtain ⟨e, he, hs⟩ := h x.1 x.2
      exact ⟨e, he, by simp [hs], hs⟩
    obtain ⟨l2, hscan, hcase⟩ :=
      aux_scan_all_nonfatal probe (fun s => s == 404)
        (flatPairs (prepare_ids_to_try raw) object_resources) none hall
    rcases hcase with ⟨_, hnil⟩ | ⟨e, hl, h404⟩
    · exact absurd hnil (aux_flatPairs_ne_nil _ _ (aux_prepare_ne_nil raw) (by simp [object_resources]))
    · refine ⟨e, ?_, h404⟩
      unfold get_object
      dsimp only
      rw [aux_probe_candidates_eq_scan, hscan, hl]

theorem claim_C5_witness :
    (∃ details, get_class "X" c5_probe =
      .error (.classNotFoundAggregate (prepare_ids_to_try "X") details)) ∧
    (∃ e, get_object "X" c5_probe = .error (.http e) ∧ e.status = 404) :=
  claim_C5 "X" c5_probe
    (fun _ _ => ⟨{ status := 404, content := "nf" }, rfl, rfl⟩)

/-! ## C9 -/

/-- The child-table step never touches the parent table. -/
theorem aux_child_step_classes_table (st : Store) (cid : String)
    (kw : ClassUpdateKwargs) (ct : String) :
    (update_class_child_step st cid kw ct).classes_table = st.classes_table := by
  unfold update_class_child_step
  split_ifs <;> rfl

/-- The parent-table step leaves the table unchanged when no row matches. -/
theorem aux_parent_step_not_found (st : Store) (cid : String) (kw : ClassUpdateKwargs)
    (h : st.classes_table.find? (fun r => r.class_id == cid) = none) :
    (update_class_parent_step st cid kw).classes_table = st.classes_table := by
  unfold update_class_parent_step
  split
  · exact aux_map_if_not_found _ _ _ fun a ha => by
      simpa using List.find?_eq_none.mp h a ha
  · rfl

/-- C9: the store-level template update reports success unconditionally —
it returns `True` for every input, updates no parent row when the class is
absent (no NotFound is signalled), and the existence check lives in the
endpoint, which rejects an absent class with a 404 before calling it. -/
theorem claim_C9 (st : Store) (cid : String) (kw : ClassUpdateKwargs)
    (payload : ClassUpdatePayload) (gw : Option Gateway)
    (h : st.classes_table.find? (fun r => r.class_id == cid) = none) :
    (∀ (st2 : Store) (kw2 : ClassUpdateKwargs), (db_update_class st2 cid kw2).2 = true) ∧
    (db_update_class st cid kw).1.classes_table = st.classes_table ∧
    update_class_endpoint st cid payload gw =
      (st, .httpError 404 ("Class " ++ cid ++ " not found")) := by
  refine ⟨fun st2 kw2 => rfl, ?_, ?_⟩
  · show (update_class_child_step (update_class_parent_step st cid kw) cid kw _).classes_table
      = st.classes_table
    rw [aux_child_step_classes_table, aux_parent_step_not_found st cid kw h]
  · have hnone : db_get_class st cid = none := by
      unfold db_get_class
      rw [h]
      rfl
    unfold update_class_endpoint
    rw [hnone]

theorem claim_C9_witness :
    (db_update_class {} "c1" {}).2 = true ∧
    (db_update_class {} "c1" {}).1.classes_table = ({} : Store).classes_table ∧
    update_class_endpoint {} "c1" {} none =
      ({}, .httpError 404 ("Class " ++ "c1" ++ " not found")) :=
  have h := claim_C9 {} "c1" {} {} none rfl
  ⟨h.1 {} {}, h.2.1, h.2.2⟩

/-! ## C10 -/

/-- C10: creating an instance whose referenced class is absent from the
store returns `False` and leaves the store exactly unchanged — the class
lookup happens before any insert. -/
theorem claim_C10 (st : Store) (oid cid hn he : String) (pd : Option PassDataDict)
    (status : String) (h : db_get_class st cid = none) :
    db_create_pass st oid cid hn he pd status = (st, false) := by
  unfold db_create_pass
  rw [h]

theorem claim_C10_witness :
    db_get_class {} "c1" = none ∧
    db_create_pass {} "p1" "c1" "Jane" "jane@example.com" none "Active" =
      ({}, false) :=
  ⟨rfl, claim_C10 {} "p1" "c1" "Jane" "jane@example.com" none "Active" rfl⟩

/-! ## C8 -/

/-- Every synthesized class document is a nonempty object, hence truthy: the
`No class_json found` skip reason is unreachable for an existing template. -/
theorem aux_build_class_json_truthy (r : ClassView) :
    (build_class_json r).truthy = true := by
  unfold build_class_json get_template
  dsimp only
  split_ifs <;> rfl

/-- C8: when the local relational write succeeds and the subsequent remote
sync raises, the endpoint still answers success (with the failure as a
warning message) and the locally written state is kept, not rolled back;
when no remote gateway is configured, propagation is skipped and the
endpoint reports success for the local write alone with the distinguishing
local-only message. -/
theorem claim_C8 (st : Store) (class_id : String) (payload : ClassUpdatePayload)
    (g : Gateway) (uc : ClassView)
    (hex : (db_get_class st class_id).isSome = true)
    (hne : (payload.fields.anyKey || payload.class_json.isSome) = true)
    (huc : db_get_class ((db_update_class st class_id (effective_update_data payload)).1)
      class_id = some uc) :
    (∀ err, g.create_pass_class (build_class_json uc) uc.class_type = .error err →
      update_class_endpoint st class_id payload (some g) =
        ((db_update_class st class_id (effective_update_data payload)).1,
         .ok { message := .syncFailed err, success := true })) ∧
    update_class_endpoint st class_id payload none =
      ((db_update_class st class_id (effective_update_data payload)).1,
       .ok { message := .localOnly class_id, success := true }) := by
  obtain ⟨ex, hex2⟩ := Option.isSome_iff_exists.mp hex
  constructor
  · intro err herr
    unfold update_class_endpoint
    rw [hex2]
    dsimp only
    rw [if_neg (by simp [hne]), huc]
    dsimp only
    rw [if_pos (aux_build_class_json_truthy uc), herr]
  · unfold update_class_endpoint
    rw [hex2]
    dsimp only
    rw [if_neg (by simp [hne]), huc]

def c8_store : Store :=
  { classes_table := [{ class_id := "c1", class_type := "Generic" }] }

def c8_payload : ClassUpdatePayload :=
  { fields := { base_color := some "#000000" } }

/-- A gateway whose class upsert always fails. -/
def c8_gateway : Gateway :=
  { create_pass_class := fun _ _ => .error "boom",
    update_pass_object := fun _ _ _ _ => .ok () }

def c8_uc : ClassView :=
  { class_id := "c1", class_type := "Generic", base_color := some "#000000" }

theorem claim_C8_witness :
    update_class_endpoint c8_store "c1" c8_payload (some c8_gateway) =
      ((db_update_class c8_store "c1" (effective_update_data c8_payload)).1,
       .ok { message := .syncFailed "boom", success := true }) ∧
    update_class_endpoint c8_store "c1" c8_payload none =
      ((db_update_class c8_store "c1" (effective_update_data c8_payload)).1,
       .ok { message := .localOnly "c1", success := true }) :=
  ⟨(claim_C8 c8_store "c1" c8_payload c8_gateway c8_uc rfl rfl rfl).1 "boom" rfl,
   (claim_C8 c8_store "c1" c8_payload c8_gateway c8_uc rfl rfl rfl).2⟩

end WalletPass
